import Mathlib

/-!
Verification of the light-transport core of rs_pbrt (src/core/light.rs and
src/core/sampler.rs), shallowly embedded in Lean 4.

Machine floats are modelled by exact rationals; the numeric radiance value
is treated as an opaque quantity, exactly as the spec treats it.
-/

namespace RsPbrt

/-- Modelled from the spec: the machine floating-point scalar of the source
(`Float` in core/pbrt.rs, which is not under src/) is embedded as an exact
rational number. -/
abbrev PFloat := ℚ

/-- Modelled from the spec: 3D point (core/geometry.rs is not under src/). -/
structure Point3f where
  x : PFloat
  y : PFloat
  z : PFloat
deriving DecidableEq

/-- Modelled from the spec: 3D vector (core/geometry.rs is not under src/). -/
structure Vector3f where
  x : PFloat
  y : PFloat
  z : PFloat
deriving DecidableEq

/-- Modelled from the spec: surface normal (core/geometry.rs is not under src/). -/
structure Normal3f where
  x : PFloat
  y : PFloat
  z : PFloat
deriving DecidableEq

def Point3f.sub (p q : Point3f) : Vector3f :=
  ⟨p.x - q.x, p.y - q.y, p.z - q.z⟩

def Point3f.addV (p : Point3f) (v : Vector3f) : Point3f :=
  ⟨p.x + v.x, p.y + v.y, p.z + v.z⟩

def Normal3f.abs (n : Normal3f) : Normal3f :=
  ⟨|n.x|, |n.y|, |n.z|⟩

def Normal3f.dotV (n : Normal3f) (v : Vector3f) : PFloat :=
  n.x * v.x + n.y * v.y + n.z * v.z

def Normal3f.scale (n : Normal3f) (s : PFloat) : Vector3f :=
  ⟨s * n.x, s * n.y, s * n.z⟩

def Vector3f.neg (v : Vector3f) : Vector3f :=
  ⟨-v.x, -v.y, -v.z⟩

/-- Modelled from the spec: a ray with origin, direction, parametric extent
and time (core/geometry.rs is not under src/). -/
structure Ray where
  o : Point3f
  d : Vector3f
  t_max : PFloat
  time : PFloat
deriving DecidableEq

/-- Modelled from the spec: the shadow-epsilon constant used to shorten
shadow rays so they stop just before the target point (core/pbrt.rs is not
under src/). -/
def shadowEpsilon : PFloat := 1 / 10000

/-- Modelled from the spec: the radiance value, "a small fixed-size vector of
non-negative floating-point components" (core/pbrt.rs `Spectrum` is not under
src/); embedded as an RGB triple. -/
structure Spectrum where
  r : PFloat
  g : PFloat
  b : PFloat
deriving DecidableEq

/-- Modelled from the spec: `Spectrum::new(v)` fills every component with `v`. -/
def Spectrum.new (v : PFloat) : Spectrum := ⟨v, v, v⟩

/-- Modelled from the spec: `Spectrum::default()` is the zero radiance value. -/
def Spectrum.default : Spectrum := Spectrum.new 0

/-- Modelled from the spec: the interaction-point record, "minimal shared
data — 3D position, error bound on that position (for robust ray offsetting),
outgoing-direction, surface normal, time" (core/interaction.rs is not under
src/; the field set is the one src/core/light.rs constructs). -/
structure InteractionCommon where
  p : Point3f
  time : PFloat
  p_error : Vector3f
  wo : Vector3f
  n : Normal3f
deriving DecidableEq

/-- Modelled from the spec: offsetting a ray origin along the local error
bound to avoid false self-intersection (core/geometry.rs is not under src/):
the offset is the error bound projected on the normal, flipped to the side of
the outgoing direction `w`. -/
def offset_ray_origin (p : Point3f) (p_error : Vector3f) (n : Normal3f)
    (w : Vector3f) : Point3f :=
  let d : PFloat := n.abs.dotV p_error
  let offset : Vector3f := n.scale d
  let offset2 : Vector3f := if n.dotV w < 0 then offset.neg else offset
  p.addV offset2

/-- Modelled from the spec: `InteractionCommon::spawn_ray_to`
(core/interaction.rs is not under src/): "constructs a ray from `p0` toward
`p1` with both endpoints nudged along their local error bounds to avoid false
self-intersection"; the ray extent stops `shadowEpsilon` short of the target. -/
def InteractionCommon.spawn_ray_to (it p1 : InteractionCommon) : Ray :=
  let origin : Point3f := offset_ray_origin it.p it.p_error it.n (p1.p.sub it.p)
  let target : Point3f := offset_ray_origin p1.p p1.p_error p1.n (origin.sub p1.p)
  { o := origin, d := target.sub origin, t_max := 1 - shadowEpsilon, time := it.time }

/-- Modelled from the spec: a material handle; `transmittance` only tests its
presence (core/material.rs is not under src/). -/
inductive Material where
  | mk : Material
deriving DecidableEq

/-- Modelled from the spec: the primitive handle, an external collaborator
that "must expose `get_material() -> optional material handle`". -/
structure Primitive where
  get_material : Option Material
deriving DecidableEq

/-- Modelled from the spec: the surface-interaction record returned by the
scene intersection query; the field set is the one src/core/light.rs reads
(position, time, error bound, outgoing direction, normal, optional primitive
handle). -/
structure SurfaceInteraction where
  p : Point3f
  time : PFloat
  p_error : Vector3f
  wo : Vector3f
  n : Normal3f
  primitive : Option Primitive

/-- The interaction-point record that `VisibilityTester::tr` builds from a
surface interaction after a pass-through hit (src/core/light.rs lines 92-98). -/
def SurfaceInteraction.common (isect : SurfaceInteraction) : InteractionCommon :=
  { p := isect.p, time := isect.time, p_error := isect.p_error,
    wo := isect.wo, n := isect.n }

/-- Modelled from the spec: the Scene, an external collaborator that "must
expose: `intersect(ray) -> optional surface-interaction-with-primitive-handle`
and `intersect_p(ray) -> bool` (occlusion-only, faster existence test)". -/
structure Scene where
  intersect : Ray → Option SurfaceInteraction
  intersect_p : Ray → Bool

/-- `LightFlags` (src/core/light.rs lines 15-21). -/
inductive LightFlags where
  | DeltaPosition
  | DeltaDirection
  | Area
  | Infinite
deriving DecidableEq

/-- The `u8` discriminant of each `LightFlags` variant (src/core/light.rs
lines 15-21). -/
def LightFlags.asU8 : LightFlags → Nat
  | .DeltaPosition => 1
  | .DeltaDirection => 2
  | .Area => 4
  | .Infinite => 8

/-- `is_delta_light` (src/core/light.rs lines 56-66): checks whether the
`DeltaPosition` or `DeltaDirection` bit is set in the flags byte. -/
def is_delta_light (flags : Nat) : Bool :=
  let pos : Bool := if flags &&& LightFlags.DeltaPosition.asU8 > 0 then true else false
  let dir : Bool := if flags &&& LightFlags.DeltaDirection.asU8 > 0 then true else false
  pos || dir

/-- `VisibilityTester` (src/core/light.rs lines 70-74): two interaction-point
records, the shading point `p0` and the light point `p1`. -/
structure VisibilityTester where
  p0 : InteractionCommon
  p1 : InteractionCommon
deriving DecidableEq

/-- `VisibilityTester::unoccluded` (src/core/light.rs lines 77-79): true iff
the scene occlusion query reports no hit on the ray spawned from `p0`
toward `p1`. -/
def VisibilityTester.unoccluded (vt : VisibilityTester) (scene : Scene) : Bool :=
  !(scene.intersect_p (vt.p0.spawn_ray_to vt.p1))

/-- The loop body of `VisibilityTester::tr` (src/core/light.rs lines 83-105),
indexed by fuel because the source `loop` carries no iteration bound: `none`
means the loop has not returned within `fuel` iterations.  Each iteration
casts the current ray; an opaque hit returns the zero spectrum, a hit on a
material-less primitive advances the ray to one spawned at the hit point, a
hit carrying no primitive handle leaves the ray unchanged (the source `if let`
has no else branch), and a miss breaks out returning the unit spectrum. -/
def trLoop (scene : Scene) (p1 : InteractionCommon) : Nat → Ray → Option Spectrum
  | 0, _ => none
  | fuel + 1, ray =>
    match scene.intersect ray with
    | some isect =>
      match isect.primitive with
      | some primitive =>
        match primitive.get_material with
        | some _ => some Spectrum.default
        | none => trLoop scene p1 fuel (isect.common.spawn_ray_to p1)
      | none => trLoop scene p1 fuel ray
    | none => some (Spectrum.new 1)

/-- `VisibilityTester::tr` (src/core/light.rs lines 80-107), fuel-indexed:
starts the loop from the ray spawned from `p0` toward `p1`. -/
def VisibilityTester.tr (vt : VisibilityTester) (scene : Scene) (fuel : Nat) :
    Option Spectrum :=
  trLoop scene vt.p1 fuel (vt.p0.spawn_ray_to vt.p1)

/-- Modelled from the spec: no concrete `Sampler` implementation is under
src/ (src/core/sampler.rs holds only the trait); the sampler configuration
fixed at construction — seed, samples-per-pixel target, and the registry of
requested 2D-array lengths. -/
structure SamplerConfig where
  seed : Nat
  samples_per_pixel : Nat
  array_sizes : List Nat
deriving DecidableEq

/-- Modelled from the spec: the mutable sampler state — "current pixel
coordinate, current sample index within that pixel, total samples-per-pixel
target, a registry of requested fixed-size 2D/1D array dimensions", plus the
stream cursor (dimension index) within the current sample. -/
structure SamplerState where
  config : SamplerConfig
  pixel : Int × Int
  sample_num : Nat
  dim : Nat
deriving DecidableEq

/-- Modelled from the spec: a freshly constructed sampler carrying a given
configuration, before any `start_pixel` call. -/
def mkSampler (cfg : SamplerConfig) : SamplerState :=
  { config := cfg, pixel := (0, 0), sample_num := 0, dim := 0 }

/-- Modelled from the spec: the deterministic value stream — every returned
scalar is a pure function of the seed, the pixel coordinate, the sample index
and the dimension cursor, so that per-pixel random streams align call-for-call
and repeated renders reproduce bit-for-bit. -/
def sampleValue (seed : Nat) (pixel : Int × Int) (sample_num dim : Nat) : PFloat :=
  (((seed + 31 * pixel.1.natAbs + 73 * pixel.2.natAbs
     + 151 * sample_num + 311 * dim) * 2654435761) % 4096 : Nat) / 4096

/-- Modelled from the spec: one call of the Sampler trait interface
(src/core/sampler.rs lines 8-21 names the methods; their semantics are from
the spec contract). -/
inductive SamplerCall where
  | start_pixel (p : Int × Int)
  | get_1d
  | get_2d
  | get_2d_array (n : Nat)
  | start_next_sample
deriving DecidableEq

/-- Modelled from the spec: the value returned by one sampler call. -/
inductive SamplerOutput where
  | unit
  | val1 (x : PFloat)
  | val2 (x y : PFloat)
  | arr (xs : List (PFloat × PFloat))
  | more (b : Bool)
deriving DecidableEq

/-- Modelled from the spec: the sampler state machine.  `start_pixel` resets
the internal cursors for a new pixel; `get_1d`/`get_2d` advance the stream by
one scalar or one 2-tuple; `get_2d_array` returns the next pre-registered
array, or a zero-filled sequence when the length was never registered;
`start_next_sample` advances the sample index and reports whether the
samples-per-pixel target is not yet exhausted. -/
def samplerStep (s : SamplerState) : SamplerCall → SamplerOutput × SamplerState
  | .start_pixel p =>
    (.unit, { s with pixel := p, sample_num := 0, dim := 0 })
  | .get_1d =>
    (.val1 (sampleValue s.config.seed s.pixel s.sample_num s.dim),
     { s with dim := s.dim + 1 })
  | .get_2d =>
    (.val2 (sampleValue s.config.seed s.pixel s.sample_num s.dim)
           (sampleValue s.config.seed s.pixel s.sample_num (s.dim + 1)),
     { s with dim := s.dim + 2 })
  | .get_2d_array n =>
    if s.config.array_sizes.contains n then
      (.arr ((List.range n).map (fun i =>
         (sampleValue s.config.seed s.pixel s.sample_num (s.dim + 2 * i),
          sampleValue s.config.seed s.pixel s.sample_num (s.dim + 2 * i + 1)))),
       { s with dim := s.dim + 2 * n })
    else
      (.arr (List.replicate n (0, 0)), s)
  | .start_next_sample =>
    if s.sample_num + 1 < s.config.samples_per_pixel then
      (.more true, { s with sample_num := s.sample_num + 1, dim := 0 })
    else
      (.more false, s)

/-- Modelled from the spec: driving a sampler through a sequence of calls and
collecting the outputs. -/
def samplerRun : SamplerState → List SamplerCall → List SamplerOutput
  | _, [] => []
  | s, c :: cs =>
    let r := samplerStep s c
    r.1 :: samplerRun r.2 cs

/-- The call `VisibilityTester::unoccluded` as the integrator observes it:
the result together with the final state of every argument.  The source
method takes `&self` and `&Scene` (src/core/light.rs line 77) and its body
rebinds neither, so the state-passing translation returns both unchanged. -/
def VisibilityTester.unoccludedRun (vt : VisibilityTester) (scene : Scene) :
    Bool × VisibilityTester × Scene :=
  (vt.unoccluded scene, vt, scene)

/-- The call `VisibilityTester::tr` as the integrator observes it: the result
together with the final state of every argument.  The source method takes
`&self`, `&Scene` and `&mut Box<Sampler>` (src/core/light.rs line 80); its
body rebinds none of them — the sampler parameter is named `_sampler` and
never used — so the state-passing translation returns all three unchanged. -/
def VisibilityTester.trRun (vt : VisibilityTester) (scene : Scene)
    (sampler : SamplerState) (fuel : Nat) :
    Option Spectrum × VisibilityTester × Scene × SamplerState :=
  (vt.tr scene fuel, vt, scene, sampler)

/-- The ray-advance step of one `tr` loop iteration: a pass-through hit moves
to the ray spawned at the hit point toward `p1`; an opaque hit, a hit without
a primitive handle, and a miss leave the ray unchanged (the loop returns or
retries the same ray there). -/
def trStepRay (scene : Scene) (p1 : InteractionCommon) (ray : Ray) : Ray :=
  match scene.intersect ray with
  | some isect =>
    match isect.primitive with
    | some primitive =>
      match primitive.get_material with
      | some _ => ray
      | none => isect.common.spawn_ray_to p1
    | none => ray
  | none => ray

/-- Iterating the `tr` ray-advance step. -/
def trIter (scene : Scene) (p1 : InteractionCommon) : Nat → Ray → Ray
  | 0, ray => ray
  | k + 1, ray => trIter scene p1 k (trStepRay scene p1 ray)

/-- A ray configuration at which the `tr` loop returns: either the scene
reports no intersection, or the hit primitive carries a material. -/
def trTerminal (scene : Scene) (ray : Ray) : Prop :=
  scene.intersect ray = none ∨
  ∃ isect primitive m, scene.intersect ray = some isect ∧
    isect.primitive = some primitive ∧ primitive.get_material = some m

/-- `tr` diverges on a scene from a tester: no fuel bound makes the loop
return. -/
def trDiverges (scene : Scene) (vt : VisibilityTester) : Prop :=
  ∀ fuel : Nat, vt.tr scene fuel = none

/-- A degenerate interaction record used by the concrete test scenes: the
shading point at the origin. -/
def ptOrigin : InteractionCommon :=
  { p := ⟨0, 0, 0⟩, time := 0, p_error := ⟨0, 0, 0⟩, wo := ⟨0, 0, 0⟩,
    n := ⟨0, 0, 1⟩ }

/-- The light point at height 10 above the origin. -/
def ptLight : InteractionCommon :=
  { p := ⟨0, 0, 10⟩, time := 0, p_error := ⟨0, 0, 0⟩, wo := ⟨0, 0, 0⟩,
    n := ⟨0, 0, -1⟩ }

/-- The concrete visibility tester from the origin to the light point. -/
def vt0 : VisibilityTester := ⟨ptOrigin, ptLight⟩

/-- A scene with no geometry at all. -/
def emptyScene : Scene :=
  { intersect := fun _ => none, intersect_p := fun _ => false }

/-- A surface interaction halfway to the light on a material-less
(pass-through) primitive. -/
def transIsect : SurfaceInteraction :=
  { p := ⟨0, 0, 5⟩, time := 0, p_error := ⟨0, 0, 0⟩, wo := ⟨0, 0, 0⟩,
    n := ⟨0, 0, 1⟩, primitive := some ⟨none⟩ }

/-- A scene holding exactly one material-less surface between the two points:
the first cast (origin at the shading point) hits it, the recast from the hit
point misses. -/
def transScene : Scene :=
  { intersect := fun r => if r.o = (⟨0, 0, 0⟩ : Point3f) then some transIsect else none,
    intersect_p := fun _ => true }

/-- A surface interaction halfway to the light on an opaque (material-bearing)
primitive. -/
def opaqueIsect : SurfaceInteraction :=
  { p := ⟨0, 0, 5⟩, time := 0, p_error := ⟨0, 0, 0⟩, wo := ⟨0, 0, 0⟩,
    n := ⟨0, 0, 1⟩, primitive := some ⟨some Material.mk⟩ }

/-- A scene holding one opaque surface between the two points. -/
def opaqueScene : Scene :=
  { intersect := fun r => if r.o = (⟨0, 0, 0⟩ : Point3f) then some opaqueIsect else none,
    intersect_p := fun _ => true }

/-- A geometrically degenerate scene: every ray, wherever it starts, reports
the same material-less hit, so the `tr` loop keeps recasting forever. -/
def degScene : Scene :=
  { intersect := fun _ => some transIsect, intersect_p := fun _ => true }

/-- A surface interaction carrying no primitive handle. -/
def noPrimIsect : SurfaceInteraction :=
  { p := ⟨0, 0, 5⟩, time := 0, p_error := ⟨0, 0, 0⟩, wo := ⟨0, 0, 0⟩,
    n := ⟨0, 0, 1⟩, primitive := none }

/-- A second degenerate scene: every ray reports a hit carrying no primitive
handle, so the `tr` loop retries the same ray forever. -/
def noPrimScene : Scene :=
  { intersect := fun _ => some noPrimIsect, intersect_p := fun _ => true }

lemma degScene_trLoop_none (fuel : Nat) :
    ∀ ray, trLoop degScene ptLight fuel ray = none := by
  induction fuel with
  | zero => intro ray; rfl
  | succ n ih => intro ray; simpa [trLoop, degScene, transIsect] using ih _

lemma noPrimScene_trLoop_none (fuel : Nat) :
    ∀ ray, trLoop noPrimScene ptLight fuel ray = none := by
  induction fuel with
  | zero => intro ray; rfl
  | succ n ih => intro ray; simpa [trLoop, noPrimScene, noPrimIsect] using ih _

lemma trLoop_terminal_isSome (scene : Scene) (p1 : InteractionCommon)
    (ray : Ray) (fuel : Nat) (h : trTerminal scene ray) :
    ∃ s, trLoop scene p1 (fuel + 1) ray = some s := by
  rcases h with h | ⟨isect, primitive, m, h1, h2, h3⟩
  · exact ⟨Spectrum.new 1, by simp [trLoop, h]⟩
  · exact ⟨Spectrum.default, by simp [trLoop, h1, h2, h3]⟩

lemma trLoop_nonterminal_step (scene : Scene) (p1 : InteractionCommon)
    (ray : Ray) (fuel : Nat) (h : ¬ trTerminal scene ray) :
    trLoop scene p1 (fuel + 1) ray = trLoop scene p1 fuel (trStepRay scene p1 ray) := by
  unfold trTerminal at h
  push_neg at h
  obtain ⟨hne, hnm⟩ := h
  match hi : scene.intersect ray with
  | none => exact absurd hi hne
  | some isect =>
    match hp : isect.primitive with
    | none => simp [trLoop, trStepRay, hi, hp]
    | some primitive =>
      match hm : primitive.get_material with
      | some m => exact (hnm isect primitive m hi hp hm).elim
      | none => simp [trLoop, trStepRay, hi, hp, hm]

lemma trLoop_some_values (scene : Scene) (p1 : InteractionCommon)
    (fuel : Nat) :
    ∀ ray s, trLoop scene p1 fuel ray = some s →
      s = Spectrum.new 1 ∨ s = Spectrum.default := by
  induction fuel with
  | zero => intro ray s h; simp [trLoop] at h
  | succ n ih =>
    intro ray s h
    rw [trLoop] at h
    match hi : scene.intersect ray with
    | none => simp [hi] at h; exact Or.inl h.symm
    | some isect =>
      simp only [hi] at h
      match hp : isect.primitive with
      | none => simp only [hp] at h; exact ih _ _ h
      | some primitive =>
        simp only [hp] at h
        match hm : primitive.get_material with
        | some m => simp [hm] at h; exact Or.inr h.symm
        | none => simp only [hm] at h; exact ih _ _ h

lemma tr_reaches_terminal_isSome (scene : Scene) (p1 : InteractionCommon)
    (k : Nat) :
    ∀ ray, trTerminal scene (trIter scene p1 k ray) →
      ∃ s, trLoop scene p1 (k + 1) ray = some s := by
  induction k with
  | zero => intro ray h; exact trLoop_terminal_isSome scene p1 ray 0 h
  | succ n ih =>
    intro ray h
    by_cases hterm : trTerminal scene ray
    · exact trLoop_terminal_isSome scene p1 ray (n + 1) hterm
    · rw [show n + 1 + 1 = (n + 1) + 1 from rfl,
        trLoop_nonterminal_step scene p1 ray (n + 1) hterm]
      exact ih (trStepRay scene p1 ray) h

/-- Claim C1, amended (the source imposes no iteration cap): every iteration
of `VisibilityTester::tr` either returns (on a miss or an opaque hit) or
advances the ray by the pass-through step, so whenever the `k`-th iterate of
that step reaches a terminal configuration, `tr` returns within `k + 1`
iterations; absent such a `k` the loop never returns, and there is no
fallback blocked value. -/
theorem C1_tr_terminates_when_iterate_reaches_terminal (scene : Scene)
    (vt : VisibilityTester) (k : Nat)
    (h : trTerminal scene (trIter scene vt.p1 k (vt.p0.spawn_ray_to vt.p1))) :
    ∃ s, vt.tr scene (k + 1) = some s :=
  tr_reaches_terminal_isSome scene vt.p1 k (vt.p0.spawn_ray_to vt.p1) h

/-- Witness for claim C1: in the empty scene the very first cast misses, so
`tr` returns with fuel 1. -/
theorem C1_tr_terminates_witness : ∃ s, vt0.tr emptyScene (0 + 1) = some s :=
  C1_tr_terminates_when_iterate_reaches_terminal emptyScene vt0 0 (Or.inl rfl)

/-- Counterexample for claim C1 as stated: the source loop
(src/core/light.rs lines 83-105) carries no iteration cap, and on a
geometrically degenerate scene — every cast reports the same material-less
hit — no fuel bound makes `tr` return, so no cap-exceeded blocked value is
ever produced. -/
theorem C1_no_iteration_cap_counterexample : trDiverges degScene vt0 :=
  fun fuel => degScene_trLoop_none fuel (vt0.p0.spawn_ray_to vt0.p1)

/-- Claim C2: whenever an intersection found by `VisibilityTester::tr` along
the ray toward `p1` — at any loop iteration, hence stated on the loop body
`trLoop` at an arbitrary current ray — lies on a primitive whose
`get_material()` returns a material, the loop immediately returns the zero
radiance value. -/
theorem C2_opaque_hit_returns_zero (scene : Scene) (p1 : InteractionCommon)
    (ray : Ray) (fuel : Nat) (isect : SurfaceInteraction)
    (primitive : Primitive) (m : Material)
    (h1 : scene.intersect ray = some isect)
    (h2 : isect.primitive = some primitive)
    (h3 : primitive.get_material = some m) :
    trLoop scene p1 (fuel + 1) ray = some Spectrum.default := by
  simp [trLoop, h1, h2, h3]

/-- Witness for claim C2: the concrete one-opaque-surface scene blocks the
concrete tester at the first iteration. -/
theorem C2_opaque_hit_witness :
    trLoop opaqueScene vt0.p1 (0 + 1) (vt0.p0.spawn_ray_to vt0.p1)
      = some Spectrum.default :=
  C2_opaque_hit_returns_zero opaqueScene vt0.p1 _ 0 opaqueIsect
    ⟨some Material.mk⟩ Material.mk
    (by simp [opaqueScene, vt0, InteractionCommon.spawn_ray_to, offset_ray_origin,
      ptOrigin, ptLight, Point3f.sub, Point3f.addV, Normal3f.abs, Normal3f.dotV,
      Normal3f.scale, Vector3f.neg])
    rfl rfl

/-- Claim C3: `tr` returns the unit (fully-transmitting) radiance value when
the scene reports no intersection; it passes through a single material-less
surface with no attenuation and still returns the unit value; it returns the
zero value when the intervening surface is opaque. -/
theorem C3_tr_unit_and_zero_cases (scene : Scene) (vt : VisibilityTester)
    (fuel : Nat) :
    (scene.intersect (vt.p0.spawn_ray_to vt.p1) = none →
      vt.tr scene (fuel + 1) = some (Spectrum.new 1)) ∧
    (∀ isect primitive,
      scene.intersect (vt.p0.spawn_ray_to vt.p1) = some isect →
      isect.primitive = some primitive →
      primitive.get_material = none →
      scene.intersect (isect.common.spawn_ray_to vt.p1) = none →
      vt.tr scene (fuel + 1 + 1) = some (Spectrum.new 1)) ∧
    (∀ isect primitive m,
      scene.intersect (vt.p0.spawn_ray_to vt.p1) = some isect →
      isect.primitive = some primitive →
      primitive.get_material = some m →
      vt.tr scene (fuel + 1) = some Spectrum.default) := by
  refine ⟨fun h => ?_, fun isect primitive h1 h2 h3 h4 => ?_,
    fun isect primitive m h1 h2 h3 => ?_⟩
  · simp [VisibilityTester.tr, trLoop, h]
  · simp [VisibilityTester.tr, trLoop, h1, h2, h3, h4]
  · simp [VisibilityTester.tr, trLoop, h1, h2, h3]

/-- Witness for claim C3: the three cases evaluated on concrete scenes — the
empty scene, the one-pass-through-surface scene, and the one-opaque-surface
scene. -/
theorem C3_tr_cases_witness :
    vt0.tr emptyScene 1 = some (Spectrum.new 1) ∧
    vt0.tr transScene 2 = some (Spectrum.new 1) ∧
    vt0.tr opaqueScene 1 = some Spectrum.default :=
  ⟨(C3_tr_unit_and_zero_cases emptyScene vt0 0).1 rfl,
   (C3_tr_unit_and_zero_cases transScene vt0 0).2.1 transIsect ⟨none⟩
     (by simp [transScene, vt0, InteractionCommon.spawn_ray_to, offset_ray_origin,
       ptOrigin, ptLight, Point3f.sub, Point3f.addV, Normal3f.abs, Normal3f.dotV,
       Normal3f.scale, Vector3f.neg])
     rfl rfl
     (by simp [transScene, vt0, InteractionCommon.spawn_ray_to, offset_ray_origin,
       ptOrigin, ptLight, transIsect, SurfaceInteraction.common, Point3f.sub,
       Point3f.addV, Normal3f.abs, Normal3f.dotV, Normal3f.scale, Vector3f.neg]),
   (C3_tr_unit_and_zero_cases opaqueScene vt0 0).2.2 opaqueIsect
     ⟨some Material.mk⟩ Material.mk
     (by simp [opaqueScene, vt0, InteractionCommon.spawn_ray_to, offset_ray_origin,
       ptOrigin, ptLight, Point3f.sub, Point3f.addV, Normal3f.abs, Normal3f.dotV,
       Normal3f.scale, Vector3f.neg])
     rfl rfl⟩

/-- Claim C4: `VisibilityTester::unoccluded` returns true iff the scene
occlusion query `intersect_p` reports no intersection on the ray spawned from
`p0` toward `p1` (both endpoints offset along their error bounds inside
`spawn_ray_to`); in particular it is true on the empty scene and false on the
one-opaque-surface scene. -/
theorem C4_unoccluded_iff_intersect_p_false (scene : Scene)
    (vt : VisibilityTester) :
    (vt.unoccluded scene = true ↔
      scene.intersect_p (vt.p0.spawn_ray_to vt.p1) = false) ∧
    vt0.unoccluded emptyScene = true ∧
    vt0.unoccluded opaqueScene = false := by
  refine ⟨?_, ?_, ?_⟩
  · simp [VisibilityTester.unoccluded]
  · simp [VisibilityTester.unoccluded, emptyScene]
  · simp [VisibilityTester.unoccluded, opaqueScene]

set_option maxRecDepth 4000 in
/-- Claim C5: `is_delta_light` is true iff the `DeltaPosition` (value 1) or
`DeltaDirection` (value 2) bit of the flags byte is set — i.e. bit index 0 or
1 — and in particular is false when only the `Area` and/or `Infinite` bits
are set. -/
theorem C5_is_delta_light_iff_delta_bits :
    (∀ f : Fin 256, is_delta_light f.val = true ↔
      (Nat.testBit f.val 0 = true ∨ Nat.testBit f.val 1 = true)) ∧
    is_delta_light LightFlags.Area.asU8 = false ∧
    is_delta_light LightFlags.Infinite.asU8 = false ∧
    is_delta_light (LightFlags.Area.asU8 + LightFlags.Infinite.asU8) = false := by
  refine ⟨by decide, by decide, by decide, by decide⟩

/-- Claim C6: `unoccluded` and `tr` are pure with respect to the tester and
the scene: the state-passing translations return the tester, the scene and
the sampler unchanged, and resolving the same tester a second time against
the returned state yields the same result. -/
theorem C6_visibility_queries_pure (vt : VisibilityTester) (scene : Scene)
    (sampler : SamplerState) (fuel : Nat) :
    (vt.unoccludedRun scene).2.1 = vt ∧
    (vt.unoccludedRun scene).2.2 = scene ∧
    (vt.trRun scene sampler fuel).2.1 = vt ∧
    (vt.trRun scene sampler fuel).2.2.1 = scene ∧
    ((vt.unoccludedRun scene).2.1.unoccludedRun (vt.unoccludedRun scene).2.2).1
      = (vt.unoccludedRun scene).1 ∧
    ((vt.trRun scene sampler fuel).2.1.trRun (vt.trRun scene sampler fuel).2.2.1
        (vt.trRun scene sampler fuel).2.2.2 fuel).1
      = (vt.trRun scene sampler fuel).1 :=
  ⟨rfl, rfl, rfl, rfl, rfl, rfl⟩

/-- Claim C7, amended: no operation raises an error or panics —
`is_delta_light` and `unoccluded` are total, and every value `tr` returns is
a well-defined one (the unit spectrum or the zero spectrum) — but `tr` is not
total on the value level: its loop need not return on degenerate scenes. -/
theorem C7_returned_values_well_defined (scene : Scene)
    (vt : VisibilityTester) (fuel : Nat) (s : Spectrum)
    (h : vt.tr scene fuel = some s) :
    s = Spectrum.new 1 ∨ s = Spectrum.default :=
  trLoop_some_values scene vt.p1 fuel (vt.p0.spawn_ray_to vt.p1) s h

/-- Witness for claim C7: the unit value returned on the empty scene is one
of the two well-defined results. -/
theorem C7_returned_values_witness :
    Spectrum.new 1 = Spectrum.new 1 ∨ Spectrum.new 1 = Spectrum.default :=
  C7_returned_values_well_defined emptyScene vt0 1 (Spectrum.new 1)
    (by simp [VisibilityTester.tr, trLoop, emptyScene])

/-- Counterexample for claim C7 as stated: `tr` is not total — on a scene
whose every intersection carries no primitive handle the source loop retries
the same ray forever (the `if let` at src/core/light.rs line 86 has no else
branch), so no fuel bound makes it return a value. -/
theorem C7_tr_not_total_counterexample : trDiverges noPrimScene vt0 :=
  fun fuel => noPrimScene_trLoop_none fuel (vt0.p0.spawn_ray_to vt0.p1)

/-- Claim C8: two independently constructed samplers with identical seed and
configuration, driven through identical call sequences beginning with
`start_pixel`, produce identical output sequences — and since `start_pixel`
resets every cursor, this holds from any prior states sharing the
configuration, which is what makes repeated renders reproduce bit-for-bit. -/
theorem C8_sampler_deterministic (cfg : SamplerConfig) (p : Int × Int)
    (calls : List SamplerCall) (s1 s2 : SamplerState)
    (h1 : s1.config = cfg) (h2 : s2.config = cfg) :
    samplerRun s1 (SamplerCall.start_pixel p :: calls)
      = samplerRun s2 (SamplerCall.start_pixel p :: calls) := by
  cases s1
  cases s2
  simp only [SamplerState.config] at h1 h2
  subst h1
  subst h2
  rfl

/-- Witness for claim C8: a freshly constructed sampler and one left in an
arbitrary mid-render state, sharing the configuration, agree on the whole
output sequence after `start_pixel`. -/
theorem C8_sampler_deterministic_witness :
    samplerRun { config := ⟨42, 4, [9]⟩, pixel := (5, 7), sample_num := 3, dim := 11 }
        (SamplerCall.start_pixel (1, 2) ::
          [SamplerCall.get_1d, SamplerCall.get_2d, SamplerCall.get_2d_array 9,
           SamplerCall.start_next_sample])
      = samplerRun (mkSampler ⟨42, 4, [9]⟩)
        (SamplerCall.start_pixel (1, 2) ::
          [SamplerCall.get_1d, SamplerCall.get_2d, SamplerCall.get_2d_array 9,
           SamplerCall.start_next_sample]) :=
  C8_sampler_deterministic ⟨42, 4, [9]⟩ (1, 2) _ _ _ rfl rfl

/-- Claim C9: `tr` neither reads nor mutates the sampler it is passed (the
source parameter is `_sampler`, unused): the result is the same for any two
sampler states and the sampler comes back unchanged. -/
theorem C9_tr_independent_of_sampler (vt : VisibilityTester) (scene : Scene)
    (fuel : Nat) (s1 s2 : SamplerState) :
    (vt.trRun scene s1 fuel).1 = (vt.trRun scene s2 fuel).1 ∧
    (vt.trRun scene s1 fuel).2.2.2 = s1 :=
  ⟨rfl, rfl⟩

/-- Claim C10: `unoccluded` treats every intersection reported by
`intersect_p` as an occluder regardless of material: whenever the occlusion
query reports a hit, `unoccluded` is false — including on the concrete scene
whose only surface is material-less and which `tr` passes through as
transparent. -/
theorem C10_unoccluded_blocks_material_less (scene : Scene)
    (vt : VisibilityTester)
    (h : scene.intersect_p (vt.p0.spawn_ray_to vt.p1) = true) :
    vt.unoccluded scene = false ∧
    vt0.unoccluded transScene = false ∧
    vt0.tr transScene 2 = some (Spectrum.new 1) := by
  refine ⟨?_, ?_, ?_⟩
  · simp [VisibilityTester.unoccluded, h]
  · simp [VisibilityTester.unoccluded, transScene]
  · simp [VisibilityTester.tr, trLoop, transScene, vt0, InteractionCommon.spawn_ray_to,
      offset_ray_origin, ptOrigin, ptLight, transIsect, SurfaceInteraction.common,
      Point3f.sub, Point3f.addV, Normal3f.abs, Normal3f.dotV, Normal3f.scale,
      Vector3f.neg]

/-- Witness for claim C10: applied to the concrete material-less scene, whose
occlusion query reports a hit. -/
theorem C10_unoccluded_blocks_witness :
    vt0.unoccluded transScene = false ∧
    vt0.unoccluded transScene = false ∧
    vt0.tr transScene 2 = some (Spectrum.new 1) :=
  C10_unoccluded_blocks_material_less transScene vt0 rfl

end RsPbrt
